import Mathlib

/-!
Verification of the SecureChat encrypted-relay core against its
natural-language specification.

The development shallowly embeds the relevant JavaScript source:
- `src/web/src/crypto.js` — the hybrid RSA-OAEP + AES-GCM envelope codec
  (`encryptMessageForPublicKey` / `decryptMessageWithPrivateKey`);
- `src/server/store.js` — the Redis storage adapter (`RedisStore`), with a
  Redis list modelled as a Lean `List` whose head is the most recently
  `lPush`-ed element;
- the WebSocket server (`server.js`, Redis-backed variant) — the connection
  registry (`wsConnections` and its helpers), the `identify` / `message` /
  `close` handlers, and the `GET /api/conversations` handler.

Asynchronous handlers are embedded as pure state-transition functions:
each handler takes the server state plus the inbound frame and returns the
new state together with the frames written to sockets, in write order.
External effects are parameters: `jwt.verify` and the WebSocket
`readyState === OPEN` test live in a `ServerEnv` record, and the
randomness consumed by encryption (fresh AES key, fresh IV) is passed as
explicit arguments.

The RSA-OAEP and AES-GCM primitives themselves are idealised: wrapping
pairs the symmetric key with the public-key modulus, and AEAD encryption
pairs the plaintext with the key and nonce, so that decryption succeeds
exactly when the matching key material is supplied.  Base64 transport
encoding is modelled as a tagged wrapper with exact decode.
-/

/-- The empty string, the default JS fallback for absent fields. -/
def strEmpty : String := ""

/-- The conversation-id separator used by `getConversationId` and by the
`split` in the conversations handler. -/
def sepUnderscore : String := "_"

/-- Error text of the `identify` branch's missing-field reply. -/
def errTokenDeviceRequired : String := "token and deviceId required"

/-- Error text of the `identify` branch's bad-token reply. -/
def errInvalidToken : String := "Invalid token"

/-- Error text of the `identify` branch's unknown-device reply. -/
def errDeviceNotRegistered : String := "Device not registered"

/-- Error text of the `message` branch's unknown-recipient reply. -/
def errRecipientNotFound : String := "Recipient not found"

/-- A `{username, deviceId}` pair as it appears in envelope metadata. -/
structure DeviceRef where
  username : String
  deviceId : String
deriving DecidableEq

/-- Idealised RSA-OAEP/SHA-256 public key (identified by its modulus). -/
structure RSAPublicKey where
  modulus : Nat
deriving DecidableEq

/-- Idealised RSA-OAEP/SHA-256 private key (identified by its modulus). -/
structure RSAPrivateKey where
  modulus : Nat
deriving DecidableEq

/-- A public/private pair belongs to the same keypair when the moduli agree. -/
def validKeyPair (pk : RSAPublicKey) (sk : RSAPrivateKey) : Prop :=
  pk.modulus = sk.modulus

instance (pk : RSAPublicKey) (sk : RSAPrivateKey) : Decidable (validKeyPair pk sk) := by
  unfold validKeyPair
  infer_instance

/-- Output of `subtle.wrapKey` / forge RSA-OAEP encryption of the AES key:
idealised as the pair of the wrapping modulus and the wrapped key. -/
structure WrappedKey where
  pubModulus : Nat
  symKey : Nat
deriving DecidableEq

/-- AES-GCM output, ciphertext with the trailing 16-byte tag: idealised as a
value that determines the key, the IV and the plaintext, with decryption
checking the key and IV. -/
structure CtTag where
  key : Nat
  iv : Nat
  plaintext : List Char
deriving DecidableEq

/-- Base64 transport encoding, modelled as a tagged wrapper with exact
decode (`ab2b64` / `b642ab` in crypto.js). -/
structure B64 (α : Type) where
  data : α
deriving DecidableEq

/-- crypto.js `ab2b64`. -/
def ab2b64 {α : Type} (x : α) : B64 α := ⟨x⟩

/-- crypto.js `b642ab`. -/
def b642ab {α : Type} (x : B64 α) : α := x.data

/-- Model of `subtle.wrapKey("raw", aesKey, recipientKey, {name:"RSA-OAEP"})`. -/
def rsaWrapKey (recipientKey : RSAPublicKey) (aesKey : Nat) : WrappedKey :=
  ⟨recipientKey.modulus, aesKey⟩

/-- Model of `subtle.unwrapKey`: succeeds exactly when the private key matches the
modulus the key was wrapped under. -/
def rsaUnwrapKey (privateKey : RSAPrivateKey) (w : WrappedKey) : Option Nat :=
  if w.pubModulus = privateKey.modulus then some w.symKey else none

/-- Model of `subtle.encrypt({name:"AES-GCM", iv}, aesKey, bytes)` — ciphertext plus
trailing tag, idealised. -/
def aesGcmEncrypt (aesKey iv : Nat) (bytes : List Char) : CtTag :=
  ⟨aesKey, iv, bytes⟩

/-- Model of `subtle.decrypt({name:"AES-GCM", iv}, aesKey, ct)` — succeeds exactly
when key and IV match, returning the full plaintext; rejection returns
nothing (the AEAD never releases partial plaintext). -/
def aesGcmDecrypt (aesKey iv : Nat) (c : CtTag) : Option (List Char) :=
  if c.key = aesKey ∧ c.iv = iv then some c.plaintext else none

/-- The wire Envelope built by crypto.js `encryptMessageForPublicKey`
(fields `type`/`alg` collapsed into `alg`; `from`/`to` are the metadata
device references; binary fields base64-encoded). -/
structure Payload where
  alg : String
  fromRef : Option DeviceRef
  toRef : Option DeviceRef
  wrappedKey : B64 WrappedKey
  iv : B64 Nat
  ciphertext : B64 CtTag
  timestamp : Nat
deriving DecidableEq

instance : Inhabited Payload :=
  ⟨⟨strEmpty, none, none, ⟨⟨0, 0⟩⟩, ⟨0⟩, ⟨⟨0, 0, []⟩⟩, 0⟩⟩

/-- Model of `TextEncoder.encode`, modelled at the character level. -/
def textEncode (s : String) : List Char := s.data

/-- Model of `TextDecoder.decode`, modelled at the character level. -/
def textDecode (cs : List Char) : String := String.mk cs

/-- crypto.js `encryptMessageForPublicKey(plaintext, recipientPublicPem,
metadata)`.  The fresh 256-bit AES key and fresh 12-byte IV drawn inside
the call, and the `Date.now()` timestamp, are explicit arguments. -/
def encryptMessageForPublicKey (plaintext : String) (recipientKey : RSAPublicKey)
    (metaFrom metaTo : Option DeviceRef) (aesKey iv now : Nat) : Payload :=
  { alg := "RSA-OAEP+AES-256-GCM"
  , fromRef := metaFrom
  , toRef := metaTo
  , wrappedKey := ab2b64 (rsaWrapKey recipientKey aesKey)
  , iv := ab2b64 iv
  , ciphertext := ab2b64 (aesGcmEncrypt aesKey iv (textEncode plaintext))
  , timestamp := now }

/-- crypto.js `decryptMessageWithPrivateKey(payload, privateKey)`:
unwrap the AES key, run authenticated decryption, decode as text.
A thrown exception is modelled as `none`. -/
def decryptMessageWithPrivateKey (payload : Payload) (privateKey : RSAPrivateKey) :
    Option String :=
  match rsaUnwrapKey privateKey (b642ab payload.wrappedKey) with
  | none => none
  | some aesKey =>
    match aesGcmDecrypt aesKey (b642ab payload.iv) (b642ab payload.ciphertext) with
    | none => none
    | some bytes => some (textDecode bytes)

/-- A registered device record (`store.registerDevice` data). -/
structure Device where
  publicKey : String
  deviceName : String
  registeredAt : Nat
deriving DecidableEq

/-- A user record in Redis (`user:<username>` key): password hash plus the
`devices` object, modelled as an insertion-ordered association list so that
`Object.keys` order is preserved. -/
structure User where
  passwordHash : String
  devices : List (String × Device)
deriving DecidableEq

/-- A conversation-history entry as written by the `message` handler
(`store.addMessage`): `{from, to, payload, timestamp}`. -/
structure StoredMessage where
  msgFrom : String
  msgTo : String
  payload : Payload
  timestamp : Nat
deriving DecidableEq

instance : Inhabited StoredMessage := ⟨⟨strEmpty, strEmpty, default, 0⟩⟩

/-- The Redis state behind `RedisStore` (store.js).  Redis lists are Lean
lists with the head holding the most recently `lPush`-ed element.
`convKeys` tracks the existing `conv:*` keys for `client.keys('conv:*')`. -/
structure StoreState where
  users : String → Option User
  conv : String → List StoredMessage
  queue : String → String → List Payload
  convKeys : List String

/-- store.js `getAllDevices`: the user's `devices` object, `{}` when the
user is unknown. -/
def RedisStore.getAllDevices (s : StoreState) (username : String) :
    List (String × Device) :=
  match s.users username with
  | some u => u.devices
  | none => []

/-- store.js `getDevice`: one device record, or `null`. -/
def RedisStore.getDevice (s : StoreState) (username deviceId : String) :
    Option Device :=
  match s.users username with
  | some u => (u.devices.find? (fun d => d.1 = deviceId)).map (fun d => d.2)
  | none => none

/-- store.js `addMessage`: `lPush` the record onto `conv:<convId>`, then
`lTrim(key, 0, 999)` — keep only the newest 1000 entries. -/
def RedisStore.addMessage (s : StoreState) (convId : String) (m : StoredMessage) :
    StoreState :=
  { s with
    conv := fun c => if c = convId then (m :: s.conv c).take 1000 else s.conv c
  , convKeys := if convId ∈ s.convKeys then s.convKeys else s.convKeys ++ [convId] }

/-- store.js `getConversationHistory`: `lRange(key, 0, -1)` then `reverse`
to chronological order, oldest first. -/
def RedisStore.getConversationHistory (s : StoreState) (convId : String) :
    List StoredMessage :=
  (s.conv convId).reverse

/-- store.js `getAllConversationIds`: `keys('conv:*')` with the prefix
stripped. -/
def RedisStore.getAllConversationIds (s : StoreState) : List String :=
  s.convKeys

/-- store.js `queueMessage`: `lPush` onto `queue:<username>:<deviceId>`.
No trim — the queue has no length cap. -/
def RedisStore.queueMessage (s : StoreState) (username deviceId : String)
    (payload : Payload) : StoreState :=
  { s with
    queue := fun u d =>
      if u = username ∧ d = deviceId then payload :: s.queue u d else s.queue u d }

/-- store.js `getQueuedMessages`: `lRange(key, 0, -1)`, with NO reverse —
the returned list is newest first, unlike `getConversationHistory`. -/
def RedisStore.getQueuedMessages (s : StoreState) (username deviceId : String) :
    List Payload :=
  s.queue username deviceId

/-- store.js `clearQueuedMessages`: `del` the queue key. -/
def RedisStore.clearQueuedMessages (s : StoreState) (username deviceId : String) :
    StoreState :=
  { s with
    queue := fun u d =>
      if u = username ∧ d = deviceId then [] else s.queue u d }

/-- The server's mutable state: the in-memory `wsConnections` registry
(username → deviceId → live WebSocket handle, handles modelled as `Nat`)
plus the Redis store. -/
structure ServerState where
  wsConnections : String → String → Option Nat
  store : StoreState

/-- External collaborators of the handlers: `readyState === WebSocket.OPEN`
for each handle, and `jwt.verify` (token → username, `none` on throw). -/
structure ServerEnv where
  wsOpen : Nat → Bool
  jwtVerify : String → Option String

/-- server.js `getDeviceWebSocket`. -/
def getDeviceWebSocket (conns : String → String → Option Nat)
    (username deviceId : String) : Option Nat :=
  conns username deviceId

/-- server.js `setDeviceWebSocket`. -/
def setDeviceWebSocket (conns : String → String → Option Nat)
    (username deviceId : String) (ws : Nat) : String → String → Option Nat :=
  fun u d => if u = username ∧ d = deviceId then some ws else conns u d

/-- server.js `removeDeviceWebSocket`: deletes the entry for the key
unconditionally (the JS also drops the outer object when it becomes empty,
which does not change lookup results). -/
def removeDeviceWebSocket (conns : String → String → Option Nat)
    (username deviceId : String) : String → String → Option Nat :=
  fun u d => if u = username ∧ d = deviceId then none else conns u d

/-- JavaScript truthiness of an optional string field (`undefined` and the
empty string are falsy). -/
def truthy : Option String → Bool
  | none => false
  | some s => !s.isEmpty

/-- The underscore character, the conversation-id separator. -/
def underscoreChar : Char := '_'

/-- JS default string comparison (`<` on UTF-16 code units), on character
lists. -/
def jsCharListLt : List Char → List Char → Bool
  | [], [] => false
  | [], _ :: _ => true
  | _ :: _, [] => false
  | a :: as, b :: bs =>
    if a < b then true
    else if b < a then false
    else jsCharListLt as bs

/-- JS `a < b` on strings. -/
def jsStringLt (a b : String) : Bool :=
  jsCharListLt a.data b.data

/-- JS `String.prototype.split` with a single-character separator, on
character lists. -/
def jsSplitOnChar (sep : Char) : List Char → List (List Char)
  | [] => [[]]
  | c :: t =>
    if c = sep then [] :: jsSplitOnChar sep t
    else
      match jsSplitOnChar sep t with
      | h :: r => (c :: h) :: r
      | [] => [[c]]

/-- JS `convId.split('_')`. -/
def jsSplitUnderscore (s : String) : List String :=
  (jsSplitOnChar underscoreChar s.data).map String.mk

/-- server.js `getConversationId`: `[user1, user2].sort().join('_')` — the
stable two-element sort swaps exactly when `user2 < user1`. -/
def getConversationId (user1 user2 : String) : String :=
  if jsStringLt user2 user1 then user2 ++ sepUnderscore ++ user1
  else user1 ++ sepUnderscore ++ user2

/-- Frames the server writes to a socket. -/
inductive OutFrame
  | errorFrame (error : String)
  | identifiedOk
  | messageSent (toUser : String) (deliveredTo : Nat)
  | payloadFrame (p : Payload)
deriving DecidableEq

/-- Result of the `identify` branch: new state, frames written to the
identifying socket in order, and the connection's `ws.username` /
`ws.deviceId` fields afterwards. -/
structure IdentifyResult where
  state : ServerState
  sent : List OutFrame
  wsUser : Option String
  wsDev : Option String

/-- server.js `ws.on('message')`, `identify` branch: verify the token,
check the device registration, bind the registry, deliver the queued
payloads in the order `getQueuedMessages` returns them, clear the queue if
it was non-empty, and acknowledge. -/
def handleIdentify (env : ServerEnv) (st : ServerState) (ws : Nat)
    (wsUser wsDev : Option String) (token deviceId : Option String) :
    IdentifyResult :=
  if truthy token ∧ truthy deviceId then
    match env.jwtVerify (token.getD strEmpty) with
    | none => ⟨st, [.errorFrame errInvalidToken], wsUser, wsDev⟩
    | some username =>
      let dId := deviceId.getD strEmpty
      match RedisStore.getDevice st.store username dId with
      | none => ⟨st, [.errorFrame errDeviceNotRegistered], wsUser, wsDev⟩
      | some _ =>
        let conns := setDeviceWebSocket st.wsConnections username dId ws
        let queued := RedisStore.getQueuedMessages st.store username dId
        let store1 :=
          if queued.length > 0 then
            RedisStore.clearQueuedMessages st.store username dId
          else st.store
        ⟨⟨conns, store1⟩,
          queued.map OutFrame.payloadFrame ++ [.identifiedOk],
          some username, some dId⟩
  else ⟨st, [.errorFrame errTokenDeviceRequired], wsUser, wsDev⟩

/-- Result of the `message` branch: new state, live deliveries
`(recipient socket, payload)` in fan-out order, and frames written back to
the sender's socket. -/
structure MessageResult where
  state : ServerState
  liveSends : List (Nat × Payload)
  sent : List OutFrame

/-- One iteration of the fan-out loop over the recipient's devices: a live
open socket gets the payload and bumps `deliveredCount`; otherwise the
payload is queued for that device. -/
def fanoutStep (env : ServerEnv) (toUsername : String) (p : Payload)
    (acc : ServerState × List (Nat × Payload) × Nat) (dev : String × Device) :
    ServerState × List (Nat × Payload) × Nat :=
  match getDeviceWebSocket acc.1.wsConnections toUsername dev.1 with
  | some rws =>
    if env.wsOpen rws then
      (acc.1, acc.2.1 ++ [(rws, p)], acc.2.2 + 1)
    else
      ({ acc.1 with
         store := RedisStore.queueMessage acc.1.store toUsername dev.1 p },
       acc.2.1, acc.2.2)
  | none =>
    ({ acc.1 with
       store := RedisStore.queueMessage acc.1.store toUsername dev.1 p },
     acc.2.1, acc.2.2)

/-- The fan-out loop's liveness test for one recipient device:
`recipientWs && recipientWs.readyState === WebSocket.OPEN`. -/
def deviceLive (env : ServerEnv) (conns : String → String → Option Nat)
    (username deviceId : String) : Bool :=
  match getDeviceWebSocket conns username deviceId with
  | some rws => env.wsOpen rws
  | none => false

/-- server.js `ws.on('message')`, `message` branch: if `toUsername`,
`payload` or `ws.username` is falsy the frame is dropped with no reply;
otherwise resolve the recipient's devices (error if none), append one
record to the conversation history, fan the SAME payload out to every
device (live or queued), and confirm to the sender with the live-delivery
count. -/
def handleMessage (env : ServerEnv) (st : ServerState) (ws : Nat)
    (wsUser toUsername : Option String) (payload : Option Payload)
    (now : Nat) : MessageResult :=
  if h : truthy toUsername ∧ payload.isSome ∧ truthy wsUser then
    let toU := toUsername.getD strEmpty
    let fromU := wsUser.getD strEmpty
    let p := payload.get h.2.1
    let recipientDevices := RedisStore.getAllDevices st.store toU
    if recipientDevices.isEmpty then
      ⟨st, [], [.errorFrame errRecipientNotFound]⟩
    else
      let convId := getConversationId fromU toU
      let store1 := RedisStore.addMessage st.store convId ⟨fromU, toU, p, now⟩
      let out := recipientDevices.foldl (fanoutStep env toU p)
        (⟨st.wsConnections, store1⟩, [], 0)
      ⟨out.1, out.2.1, [.messageSent toU out.2.2]⟩
  else ⟨st, [], []⟩

/-- server.js `ws.on('close')`: if the connection had identified, remove
its registry entry — unconditionally, with no check that the closing
handle is still the bound one. -/
def handleClose (st : ServerState) (wsUser wsDev : Option String) : ServerState :=
  if truthy wsUser ∧ truthy wsDev then
    { st with
      wsConnections :=
        removeDeviceWebSocket st.wsConnections (wsUser.getD strEmpty) (wsDev.getD strEmpty) }
  else st

/-- JS `String.prototype.includes` on character lists. -/
def listIncludes (sub : List Char) : List Char → Bool
  | [] => sub.isPrefixOf ([] : List Char)
  | a :: t => sub.isPrefixOf (a :: t) || listIncludes sub t

/-- JS `convId.includes(username)`. -/
def strIncludes (s sub : String) : Bool :=
  listIncludes sub.data s.data

/-- One entry of the `GET /api/conversations` response. -/
structure ConvSummary where
  username : String
  lastMessage : StoredMessage
  unreadCount : Nat
deriving DecidableEq

/-- One iteration of the `GET /api/conversations` loop: keep `convId` when
it CONTAINS the username as a substring (`convId.includes(username)`),
split on `'_'` to guess the other participant, and push the last history
entry; a conversation with no last message is skipped. -/
def apiConvStep (st : ServerState) (username : String)
    (acc : List ConvSummary) (convId : String) : List ConvSummary :=
  if strIncludes convId username then
    let parts := jsSplitUnderscore convId
    let otherUser :=
      if parts.getD 0 strEmpty = username then parts.getD 1 strEmpty
      else parts.getD 0 strEmpty
    let history := RedisStore.getConversationHistory st.store convId
    match history.getLast? with
    | some lastMsg => acc ++ [⟨otherUser, lastMsg, 0⟩]
    | none => acc
  else acc

/-- server.js `GET /api/conversations` handler body: fold the loop over
every existing conversation id. -/
def apiConversations (st : ServerState) (username : String) : List ConvSummary :=
  (RedisStore.getAllConversationIds st.store).foldl (apiConvStep st username) []

/-- The summary the conversations handler builds for one conversation id. -/
def mkSummary (st : ServerState) (username convId : String) : ConvSummary :=
  let parts := jsSplitUnderscore convId
  let otherUser :=
    if parts.getD 0 strEmpty = username then parts.getD 1 strEmpty else parts.getD 0 strEmpty
  ⟨otherUser, ((RedisStore.getConversationHistory st.store convId).getLast?).getD default, 0⟩

/-- A concrete plaintext for the C4 witness. -/
def hiPlain : String := "hi"

/-- The empty Redis state: no users, no conversations, no queues. -/
def storeEmpty : StoreState :=
  ⟨fun _ => none, fun _ => [], fun _ _ => [], []⟩

/-- Concrete username for the C3 scenario. -/
def uC3 : String := "u"

/-- Concrete device id for the C3 scenario. -/
def dC3 : String := "d"

/-- Server state with an empty registry, for the C3 scenario. -/
def stC3 : ServerState := ⟨fun _ _ => none, storeEmpty⟩

/-- Concrete username for the C7 scenario. -/
def uC7 : String := "u7"

/-- Concrete device id for the C7 scenario. -/
def dC7 : String := "d7"

/-- A payload distinguished by its timestamp, for the C7 scenario. -/
def payloadC7 (i : Nat) : Payload :=
  { (default : Payload) with timestamp := i }

/-- One payload more than the spec's default queue cap of 1000. -/
def qpsC7 : List Payload := (List.range 1001).map payloadC7

/-- The store after enqueueing all 1001 payloads for one offline device. -/
def enqueueAllC7 : StoreState :=
  qpsC7.foldl (fun acc p => RedisStore.queueMessage acc uC7 dC7 p) storeEmpty

/-- Concrete conversation id for the C6 scenario. -/
def cC6 : String := "x_y"

/-- A history record distinguished by its timestamp, for the C6 scenario. -/
def msgC6 (i : Nat) : StoredMessage := ⟨strEmpty, strEmpty, default, i⟩

/-- One record more than the store's `lTrim` cap of 1000. -/
def msgsC6 : List StoredMessage := (List.range 1001).map msgC6

/-- The store after appending all 1001 records to one conversation. -/
def stateC6 : StoreState :=
  msgsC6.foldl (fun acc m => RedisStore.addMessage acc cC6 m) storeEmpty

/-- A short append sequence for the C6 witness. -/
def msgsC6w : List StoredMessage := [msgC6 0, msgC6 1]

/-- Concrete username for the C2 scenario. -/
def uC2 : String := "u2"

/-- Concrete device id for the C2 scenario. -/
def dC2 : String := "d2"

/-- Concrete auth token for the C2 scenario. -/
def tokC2 : String := "t2"

/-- Concrete registered device record for the C2 scenario. -/
def devC2 : Device := ⟨strEmpty, strEmpty, 0⟩

/-- First payload queued for the offline device in the C2 scenario. -/
def p1C2 : Payload := { (default : Payload) with timestamp := 1 }

/-- Second payload queued for the offline device in the C2 scenario. -/
def p2C2 : Payload := { (default : Payload) with timestamp := 2 }

/-- Store with user `u2` owning device `d2`, and `p1C2` then `p2C2`
enqueued (in that order) for `(u2, d2)`. -/
def storeC2 : StoreState :=
  RedisStore.queueMessage
    (RedisStore.queueMessage
      { storeEmpty with
        users := fun n => if n = uC2 then some ⟨strEmpty, [(dC2, devC2)]⟩ else none }
      uC2 dC2 p1C2)
    uC2 dC2 p2C2

/-- Environment for the C2 scenario: every socket open, and `jwt.verify`
accepting exactly `tokC2` as `u2`. -/
def envC2 : ServerEnv :=
  ⟨fun _ => true, fun t => if t = tokC2 then some uC2 else none⟩

/-- Server state for the C2 scenario: empty registry over `storeC2`. -/
def stC2 : ServerState := ⟨fun _ _ => none, storeC2⟩

/-- Result of device `d2` identifying after the two payloads were queued. -/
def resC2 : IdentifyResult :=
  handleIdentify envC2 stC2 9 none none (some tokC2) (some dC2)

/-- Concrete recipient username for the C8 scenario. -/
def bobC8 : String := "bob"

/-- Concrete device id for the C8 recipient. -/
def b1C8 : String := "b1"

/-- Concrete registered device record for the C8 scenario. -/
def devC8 : Device := ⟨strEmpty, strEmpty, 0⟩

/-- Server state for the C8 scenario: recipient `bob` exists with one
registered device, registry empty. -/
def stC8 : ServerState :=
  ⟨fun _ _ => none,
   { storeEmpty with
     users := fun n => if n = bobC8 then some ⟨strEmpty, [(b1C8, devC8)]⟩ else none }⟩

/-- Environment for the C8 scenario. -/
def envC8 : ServerEnv := ⟨fun _ => true, fun _ => none⟩

/-- A well-formed payload for the C8 scenario. -/
def pC8 : Payload := default

/-- Result of a well-formed `message` frame arriving on a connection that
never identified (`ws.username` unset). -/
def resC8 : MessageResult :=
  handleMessage envC8 stC8 3 none (some bobC8) (some pC8) 5

/-- Concrete recipient username for the C9 scenario. -/
def bobC9 : String := "bob9"

/-- First (and in the client's encryption, only addressed) recipient
device id in the C9 scenario. -/
def b1C9 : String := "b1"

/-- Second recipient device id in the C9 scenario. -/
def b2C9 : String := "b2"

/-- Identified sender username in the C9 scenario. -/
def aliceC9 : String := "alice9"

/-- Concrete registered device record for the C9 scenario. -/
def devC9 : Device := ⟨strEmpty, strEmpty, 0⟩

/-- The sender's single envelope, addressed (and wrapped) to device `b1`
only, exactly as the client builds it for the first resolved device. -/
def pC9 : Payload :=
  { (default : Payload) with
    toRef := some ⟨bobC9, b1C9⟩
  , wrappedKey := ab2b64 (rsaWrapKey ⟨41⟩ 3) }

/-- Server state for the C9 scenario: `bob9` has two registered devices,
both with live open sockets (handles 1 and 2). -/
def stC9 : ServerState :=
  ⟨fun n d =>
    if n = bobC9 ∧ d = b1C9 then some 1
    else if n = bobC9 ∧ d = b2C9 then some 2
    else none,
   { storeEmpty with
     users := fun n =>
       if n = bobC9 then some ⟨strEmpty, [(b1C9, devC9), (b2C9, devC9)]⟩ else none }⟩

/-- Environment for the C9 scenario: every socket open. -/
def envC9 : ServerEnv := ⟨fun _ => true, fun _ => none⟩

/-- Result of the identified sender's `message` frame fanning out to the
two live devices. -/
def resC9 : MessageResult :=
  handleMessage envC9 stC9 7 (some aliceC9) (some bobC9) (some pC9) 5

/-- Recipient identity for the C1 scenario. -/
def toUC1 : String := "ub"

/-- Sender identity for the C1 scenario. -/
def fromUC1 : String := "ua"

/-- First live device of the C1 recipient. -/
def d1C1 : String := "e1"

/-- Second live device of the C1 recipient. -/
def d2C1 : String := "e2"

/-- Offline device of the C1 recipient. -/
def d3C1 : String := "e3"

/-- Concrete registered device record for the C1 scenario. -/
def devC1 : Device := ⟨strEmpty, strEmpty, 0⟩

/-- The C1 recipient's user record with its three registered devices. -/
def userC1 : User :=
  ⟨strEmpty, [(d1C1, devC1), (d2C1, devC1), (d3C1, devC1)]⟩

/-- Store for the C1 scenario: only the recipient exists. -/
def storeC1 : StoreState :=
  { storeEmpty with users := fun n => if n = toUC1 then some userC1 else none }

/-- Server state for the C1 scenario: handles 1 and 2 bound for the two
live devices, nothing for the third. -/
def stC1 : ServerState :=
  ⟨fun n d =>
    if n = toUC1 ∧ d = d1C1 then some 1
    else if n = toUC1 ∧ d = d2C1 then some 2
    else none,
   storeC1⟩

/-- Environment for the C1 scenario: exactly handles 1 and 2 are open. -/
def envC1 : ServerEnv := ⟨fun w => w == 1 || w == 2, fun _ => none⟩

/-- The sender's envelope in the C1 scenario. -/
def pC1 : Payload := default

/-- Result of the C1 `message` frame. -/
def resC1 : MessageResult :=
  handleMessage envC1 stC1 3 (some fromUC1) (some toUC1) (some pC1) 7

/-- An identity whose name is a prefix-substring of another identity, for
the C10 scenario. -/
def aC10 : String := "a"

/-- First participant of the C10 conversation. -/
def abC10 : String := "ab"

/-- Second participant of the C10 conversation. -/
def cC10 : String := "c"

/-- The C10 conversation id, as `getConversationId` builds it. -/
def abcC10 : String := "ab_c"

/-- The single stored record of the C10 conversation. -/
def mC10 : StoredMessage := ⟨abC10, cC10, default, 0⟩

/-- Server state for the C10 scenario: one conversation between `ab` and
`c`, with one record. -/
def stC10 : ServerState :=
  ⟨fun _ _ => none,
   { storeEmpty with
     conv := fun c => if c = abcC10 then [mC10] else []
   , convKeys := [abcC10] }⟩

/-- C4: for every plaintext and every valid RSA keypair, and for every
symmetric key and nonce consumed by sealing, decrypting the sealed
envelope with the matching private key returns exactly the plaintext. -/
theorem c4_seal_open_roundtrip (plaintext : String) (pk : RSAPublicKey)
    (sk : RSAPrivateKey) (metaFrom metaTo : Option DeviceRef)
    (aesKey iv now : Nat) (hkey : validKeyPair pk sk) :
    decryptMessageWithPrivateKey
      (encryptMessageForPublicKey plaintext pk metaFrom metaTo aesKey iv now) sk
      = some plaintext := by
  unfold validKeyPair at hkey
  simp [decryptMessageWithPrivateKey, encryptMessageForPublicKey,
    rsaUnwrapKey, rsaWrapKey, aesGcmDecrypt, aesGcmEncrypt,
    ab2b64, b642ab, textEncode, textDecode, hkey]

/-- Witness for C4 at concrete inputs. -/
theorem c4_seal_open_roundtrip_witness :
    validKeyPair ⟨5⟩ ⟨5⟩ ∧
    decryptMessageWithPrivateKey
      (encryptMessageForPublicKey hiPlain ⟨5⟩ none none 3 7 11) ⟨5⟩ = some hiPlain :=
  ⟨by decide, c4_seal_open_roundtrip hiPlain ⟨5⟩ ⟨5⟩ none none 3 7 11 (by decide)⟩

/-- Appending with `lPush` then reading with plain `lRange` leaves the list
newest-first: folding `queueMessage` prepends each payload. -/
theorem queueMessage_foldl (s : StoreState) (u d : String) (ps : List Payload) :
    (ps.foldl (fun acc p => RedisStore.queueMessage acc u d p) s).queue u d
      = ps.reverse ++ s.queue u d := by
  induction ps generalizing s with
  | nil => simp
  | cons p t ih =>
    rw [List.foldl_cons, ih]
    simp [RedisStore.queueMessage]

/-- C7 counterexample: enqueueing 1001 payloads for one permanently
offline device leaves a queue of length 1001 — beyond the spec's default
cap of 1000 — and the oldest payload has not been evicted. -/
theorem c7_queue_unbounded_cx :
    (RedisStore.getQueuedMessages enqueueAllC7 uC7 dC7).length = 1001 ∧
    payloadC7 0 ∈ RedisStore.getQueuedMessages enqueueAllC7 uC7 dC7 ∧
    1000 < 1001 := by
  have h := queueMessage_foldl storeEmpty uC7 dC7 qpsC7
  have hq : RedisStore.getQueuedMessages enqueueAllC7 uC7 dC7
      = qpsC7.reverse ++ storeEmpty.queue uC7 dC7 := by
    simpa [RedisStore.getQueuedMessages, enqueueAllC7] using h
  rw [hq]
  have hmem : payloadC7 0 ∈ qpsC7 := by
    simp only [qpsC7, List.mem_map]
    exact ⟨0, by simp, rfl⟩
  refine ⟨?_, ?_, by norm_num⟩
  · simp [qpsC7, storeEmpty]
  · exact List.mem_append_left _ (List.mem_reverse.mpr hmem)

/-- C7 (amended): the per-device offline queue is unbounded — `queueMessage`
appends unconditionally, with no cap and no eviction, so after any sequence
of enqueues the queue holds exactly the enqueued payloads (newest first) on
top of what was already there, and its length grows by one per enqueue. -/
theorem c7_queue_all_entries (s : StoreState) (u d : String) (ps : List Payload) :
    (ps.foldl (fun acc p => RedisStore.queueMessage acc u d p) s).queue u d
      = ps.reverse ++ s.queue u d ∧
    ((ps.foldl (fun acc p => RedisStore.queueMessage acc u d p) s).queue u d).length
      = ps.length + (s.queue u d).length := by
  have h := queueMessage_foldl s u d ps
  exact ⟨h, by simp [h]⟩

/-- C3 counterexample: device `(u, d)` reconnects (handle 8 replaces
handle 7), then the OLD connection's close event fires; the registry entry
ends up removed — not pointing at the new handle 8 as the claim requires. -/
theorem c3_stale_close_cx :
    (handleClose
      { stC3 with
        wsConnections :=
          setDeviceWebSocket (setDeviceWebSocket stC3.wsConnections uC3 dC3 7) uC3 dC3 8 }
      (some uC3) (some dC3)).wsConnections uC3 dC3 = none ∧
    (none : Option Nat) ≠ some 8 := by
  constructor
  · decide
  · decide

/-- C3 (amended): removal on close is unconditional — `ws.on('close')`
deletes whatever handle is currently bound for the closing connection's
(identity, deviceId), with no check that the closing handle is still the
bound one, so after any close of an identified connection the registry
entry for that key is unbound. -/
theorem c3_close_unconditional (st : ServerState) (u d : String)
    (hu : u.isEmpty = false) (hd : d.isEmpty = false) :
    (handleClose st (some u) (some d)).wsConnections u d = none := by
  simp [handleClose, truthy, hu, hd, removeDeviceWebSocket]

/-- Witness for C3's amended theorem at a concrete bound registry. -/
theorem c3_close_unconditional_witness :
    uC3.isEmpty = false ∧ dC3.isEmpty = false ∧
    (handleClose
      { stC3 with wsConnections := setDeviceWebSocket stC3.wsConnections uC3 dC3 7 }
      (some uC3) (some dC3)).wsConnections uC3 dC3 = none :=
  ⟨by decide, by decide,
    c3_close_unconditional _ uC3 dC3 (by decide) (by decide)⟩

/-- Taking `n` of an append absorbs an inner `take n` of the right part. -/
theorem take_append_take {α : Type} (a b : List α) (n : Nat) :
    (a ++ b.take n).take n = (a ++ b).take n := by
  rw [List.take_append_eq_append_take, List.take_append_eq_append_take,
    List.take_take, Nat.min_eq_left (Nat.sub_le n a.length)]

/-- Folding `addMessage` over a record sequence: the stored Redis list is
the newest 1000 of all records pushed so far (newest first), provided the
starting list was within the cap. -/
theorem addMessage_foldl (s : StoreState) (c : String) (ms : List StoredMessage)
    (hlen : (s.conv c).length ≤ 1000) :
    (ms.foldl (fun acc m => RedisStore.addMessage acc c m) s).conv c
      = (ms.reverse ++ s.conv c).take 1000 := by
  induction ms generalizing s with
  | nil => simpa using (List.take_of_length_le hlen).symm
  | cons m t ih =>
    rw [List.foldl_cons]
    have hlen2 : ((RedisStore.addMessage s c m).conv c).length ≤ 1000 := by
      simp [RedisStore.addMessage]
    rw [ih _ hlen2]
    simp only [RedisStore.addMessage, if_pos]
    rw [take_append_take]
    simp

/-- C6 counterexample: appending 1001 records to a fresh conversation does
NOT return all appended records in order — `lTrim(0, 999)` in `addMessage`
evicts the oldest, leaving a history of length 1000, not 1001. -/
theorem c6_history_cap_cx :
    RedisStore.getConversationHistory stateC6 cC6 ≠ msgsC6 ∧
    (RedisStore.getConversationHistory stateC6 cC6).length = 1000 ∧
    msgsC6.length = 1001 := by
  have h := addMessage_foldl storeEmpty cC6 msgsC6 (by simp [storeEmpty])
  have hl : (RedisStore.getConversationHistory stateC6 cC6).length = 1000 := by
    have hs : RedisStore.getConversationHistory stateC6 cC6
        = ((msgsC6.reverse ++ storeEmpty.conv cC6).take 1000).reverse := by
      simpa [RedisStore.getConversationHistory, stateC6] using congrArg List.reverse h
    rw [hs]
    simp [storeEmpty, msgsC6]
  refine ⟨?_, hl, by simp [msgsC6]⟩
  intro he
  rw [he] at hl
  simp [msgsC6] at hl

/-- C6 (amended): history of a fresh conversation returns the MOST RECENT
1000 appended records, oldest-first in append order — records beyond the
`lTrim` cap of 1000 are evicted oldest-first; within the cap the history
equals the full append sequence unchanged. -/
theorem c6_history_take_1000 (ms : List StoredMessage) (c : String) :
    RedisStore.getConversationHistory
      (ms.foldl (fun acc m => RedisStore.addMessage acc c m) storeEmpty) c
      = ((ms.reverse).take 1000).reverse ∧
    (ms.length ≤ 1000 →
      RedisStore.getConversationHistory
        (ms.foldl (fun acc m => RedisStore.addMessage acc c m) storeEmpty) c
        = ms) := by
  have h := addMessage_foldl storeEmpty c ms (by simp [storeEmpty])
  have hmain : RedisStore.getConversationHistory
      (ms.foldl (fun acc m => RedisStore.addMessage acc c m) storeEmpty) c
      = ((ms.reverse).take 1000).reverse := by
    simpa [RedisStore.getConversationHistory, storeEmpty] using congrArg List.reverse h
  refine ⟨hmain, fun hle => ?_⟩
  rw [hmain, List.take_of_length_le (by simpa using hle)]
  simp

/-- Witness for C6's amended theorem on a two-record append sequence. -/
theorem c6_history_take_1000_witness :
    msgsC6w.length ≤ 1000 ∧
    RedisStore.getConversationHistory
      (msgsC6w.foldl (fun acc m => RedisStore.addMessage acc cC6 m) storeEmpty) cC6
      = msgsC6w :=
  ⟨by simp [msgsC6w], (c6_history_take_1000 msgsC6w cC6).2 (by simp [msgsC6w])⟩

/-- C2, evaluated at the failing input: with `p1C2` enqueued before `p2C2`,
a successful `identify` delivers the queued envelopes NEWEST FIRST — the
reverse of enqueue order, because `getQueuedMessages` reads the
`lPush`-built list without the `reverse` that `getConversationHistory`
applies — and then leaves the queue empty. -/
theorem c2_identify_reverse_order :
    resC2.sent = [.payloadFrame p2C2, .payloadFrame p1C2, .identifiedOk] ∧
    resC2.sent ≠ [.payloadFrame p1C2, .payloadFrame p2C2, .identifiedOk] ∧
    p1C2 ≠ p2C2 ∧
    RedisStore.getQueuedMessages resC2.state.store uC2 dC2 = [] := by
  refine ⟨by decide, by decide, by decide, by decide⟩

/-- C8 counterexample: a well-formed `message` frame (truthy recipient,
payload present, recipient registered) arriving on a connection that has
not identified is dropped silently — no reply frame, no delivery, no state
change. -/
theorem c8_silent_drop_cx :
    truthy (some bobC8) = true ∧ (some pC8).isSome = true ∧
    resC8.sent = [] ∧ resC8.liveSends = [] ∧ resC8.state = stC8 := by
  have hres : resC8 = ⟨stC8, [], []⟩ := by
    simp [resC8, handleMessage, truthy]
  refine ⟨by decide, rfl, ?_, ?_, ?_⟩ <;> rw [hres]

/-- C8 (amended): every `identify` frame receives a reply, but a `message`
frame receives a reply (receipt or error) exactly when `toUsername` and
`payload` are present/truthy AND the connection has identified; otherwise
the frame is silently ignored. -/
theorem c8_reply_iff :
    (∀ (env : ServerEnv) (st : ServerState) (ws : Nat)
        (wsUser wsDev token deviceId : Option String),
        (handleIdentify env st ws wsUser wsDev token deviceId).sent ≠ []) ∧
    (∀ (env : ServerEnv) (st : ServerState) (ws : Nat)
        (wsUser toUsername : Option String) (payload : Option Payload) (now : Nat),
        (handleMessage env st ws wsUser toUsername payload now).sent ≠ []
          ↔ (truthy toUsername ∧ payload.isSome ∧ truthy wsUser)) := by
  constructor
  · intro env st ws wsUser wsDev token deviceId
    unfold handleIdentify
    split
    · cases hjv : env.jwtVerify (token.getD strEmpty) with
      | none => simp
      | some username =>
        cases hdev : RedisStore.getDevice st.store username (deviceId.getD strEmpty) with
        | none => simp [hjv, hdev]
        | some dv => simp [hjv, hdev]
    · simp
  · intro env st ws wsUser toUsername payload now
    unfold handleMessage
    split
    case isTrue h =>
      simp only [h, iff_true]
      split
      · simp
      · simp
    case isFalse h =>
      simp only [h, iff_false]
      simp

/-- Membership in a queue after `queueMessage`: every entry was already
queued or is the payload just pushed. -/
theorem mem_queueMessage (s : StoreState) (tu td u d : String) (p q : Payload)
    (h : q ∈ (RedisStore.queueMessage s tu td p).queue u d) :
    q ∈ s.queue u d ∨ q = p := by
  simp only [RedisStore.queueMessage] at h
  split at h
  · rcases List.mem_cons.mp h with h1 | h1
    · exact Or.inr h1
    · exact Or.inl h1
  · exact Or.inl h

/-- Invariant of the fan-out fold: every live send carries exactly the
sender's payload, and every queue entry either predates the fold or is
that same payload. -/
theorem fanoutStep_foldl_mem (env : ServerEnv) (toU : String) (p : Payload)
    (devs : List (String × Device)) (acc : ServerState × List (Nat × Payload) × Nat) :
    (∀ pr ∈ (devs.foldl (fanoutStep env toU p) acc).2.1, pr ∈ acc.2.1 ∨ pr.2 = p) ∧
    (∀ u d q, q ∈ (devs.foldl (fanoutStep env toU p) acc).1.store.queue u d →
        q ∈ acc.1.store.queue u d ∨ q = p) := by
  induction devs generalizing acc with
  | nil =>
    refine ⟨fun pr h => Or.inl h, fun u d q h => Or.inl h⟩
  | cons dev t ih =>
    rw [List.foldl_cons]
    obtain ⟨ihs, ihq⟩ := ih (fanoutStep env toU p acc dev)
    constructor
    · intro pr hpr
      rcases ihs pr hpr with h | h
      · cases hws : getDeviceWebSocket acc.1.wsConnections toU dev.1 with
        | none =>
          simp only [fanoutStep, hws] at h
          exact Or.inl h
        | some rws =>
          by_cases ho : env.wsOpen rws
          · simp only [fanoutStep, hws, ho, if_true] at h
            rcases List.mem_append.mp h with h2 | h2
            · exact Or.inl h2
            · right
              have hpr2 : pr = (rws, p) := by simpa using h2
              rw [hpr2]
          · simp only [fanoutStep, hws, ho, if_false] at h
            exact Or.inl h
      · exact Or.inr h
    · intro u d q hq
      rcases ihq u d q hq with h | h
      · cases hws : getDeviceWebSocket acc.1.wsConnections toU dev.1 with
        | none =>
          simp only [fanoutStep, hws] at h
          exact mem_queueMessage _ _ _ _ _ _ _ h
        | some rws =>
          by_cases ho : env.wsOpen rws
          · simp only [fanoutStep, hws, ho, if_true] at h
            exact Or.inl h
          · simp only [fanoutStep, hws, ho, if_false] at h
            exact mem_queueMessage _ _ _ _ _ _ _ h
      · exact Or.inr h

/-- C9 counterexample: a message to two-device recipient `bob9` (both
live) delivers the BIT-IDENTICAL envelope `pC9` to both sockets; the copy
pushed to device `b2`'s socket still carries `b1` in its recipient-device
field and is still wrapped for `b1`'s key — it is neither independently
encrypted nor re-addressed. -/
theorem c9_same_envelope_cx :
    resC9.liveSends = [(1, pC9), (2, pC9)] ∧
    pC9.toRef = some ⟨bobC9, b1C9⟩ ∧
    b642ab pC9.wrappedKey = rsaWrapKey ⟨41⟩ 3 ∧
    b1C9 ≠ b2C9 := by
  refine ⟨by decide, by decide, by decide, by decide⟩

/-- C9 (amended): the Router fans out the sender's single envelope
unchanged — every live delivery carries exactly the inbound payload, and
every offline queue entry created by the fan-out is that same payload; no
per-device re-encryption or re-addressing happens on the server. -/
theorem c9_fanout_payload_unchanged (env : ServerEnv) (st : ServerState) (ws : Nat)
    (wsUser toUsername : Option String) (payload : Option Payload) (now : Nat) :
    (∀ pr ∈ (handleMessage env st ws wsUser toUsername payload now).liveSends,
        some pr.2 = payload) ∧
    (∀ u d q,
        q ∈ (handleMessage env st ws wsUser toUsername payload now).state.store.queue u d →
        q ∈ st.store.queue u d ∨ some q = payload) := by
  unfold handleMessage
  split
  case isTrue h =>
    dsimp only
    split
    · exact ⟨fun pr hpr => absurd hpr (List.not_mem_nil pr),
        fun u d q hq => Or.inl hq⟩
    · obtain ⟨hs, hq⟩ := fanoutStep_foldl_mem env (toUsername.getD strEmpty)
        (payload.get h.2.1)
        (RedisStore.getAllDevices st.store (toUsername.getD strEmpty))
        (⟨st.wsConnections,
          RedisStore.addMessage st.store
            (getConversationId (wsUser.getD strEmpty) (toUsername.getD strEmpty))
            ⟨wsUser.getD strEmpty, toUsername.getD strEmpty, payload.get h.2.1, now⟩⟩,
         [], 0)
      constructor
      · intro pr hpr
        rcases hs pr hpr with h1 | h1
        · exact absurd h1 (List.not_mem_nil pr)
        · rw [h1, Option.some_get]
      · intro u d q hmem
        rcases hq u d q hmem with h1 | h1
        · left
          simpa [RedisStore.addMessage] using h1
        · right
          rw [h1, Option.some_get]
  case isFalse h =>
    exact ⟨fun pr hpr => absurd hpr (List.not_mem_nil pr),
      fun u d q hq => Or.inl hq⟩

/-- C1: a `message` event from an identified sender to identity `toU`
whose registered devices are `[d1, d2, d3]`, with `d1`/`d2` live on open
sockets `w1`/`w2` and `d3` not live, appends exactly one
ConversationRecord (other conversations untouched), delivers the payload
live to `w1` and `w2`, enqueues exactly one entry for `d3` (no other
queue touched), and replies `message-sent` whose `deliveredTo` counts only
the 2 live deliveries. -/
theorem c1_message_fanout (env : ServerEnv) (st : ServerState)
    (ws w1 w2 : Nat) (fromU toU d1 d2 d3 : String)
    (dev1 dev2 dev3 : Device) (u : User) (p : Payload) (now : Nat)
    (res : MessageResult)
    (hFrom : fromU.isEmpty = false) (hTo : toU.isEmpty = false)
    (hUser : st.store.users toU = some u)
    (hDevs : u.devices = [(d1, dev1), (d2, dev2), (d3, dev3)])
    (h13 : d1 ≠ d3) (h23 : d2 ≠ d3)
    (hw1 : st.wsConnections toU d1 = some w1) (ho1 : env.wsOpen w1 = true)
    (hw2 : st.wsConnections toU d2 = some w2) (ho2 : env.wsOpen w2 = true)
    (hw3 : deviceLive env st.wsConnections toU d3 = false)
    (hHist : (st.store.conv (getConversationId fromU toU)).length < 1000)
    (hres : res = handleMessage env st ws (some fromU) (some toU) (some p) now) :
    RedisStore.getConversationHistory res.state.store (getConversationId fromU toU)
      = RedisStore.getConversationHistory st.store (getConversationId fromU toU)
        ++ [⟨fromU, toU, p, now⟩] ∧
    (∀ c, c ≠ getConversationId fromU toU →
        res.state.store.conv c = st.store.conv c) ∧
    res.liveSends = [(w1, p), (w2, p)] ∧
    res.state.store.queue toU d3 = p :: st.store.queue toU d3 ∧
    (∀ ux dx, ¬(ux = toU ∧ dx = d3) →
        res.state.store.queue ux dx = st.store.queue ux dx) ∧
    res.sent = [.messageSent toU 2] := by
  subst hres
  have hrun : handleMessage env st ws (some fromU) (some toU) (some p) now
      = ⟨⟨st.wsConnections,
          RedisStore.queueMessage
            (RedisStore.addMessage st.store (getConversationId fromU toU)
              ⟨fromU, toU, p, now⟩) toU d3 p⟩,
         [(w1, p), (w2, p)], [.messageSent toU 2]⟩ := by
    unfold deviceLive getDeviceWebSocket at hw3
    rcases hopt : st.wsConnections toU d3 with _ | w3
    · simp [handleMessage, truthy, hTo, hFrom, RedisStore.getAllDevices, hUser,
        hDevs, fanoutStep, getDeviceWebSocket, hw1, hw2, ho1, ho2, hopt]
    · rw [hopt] at hw3
      have ho3 : env.wsOpen w3 = false := hw3
      simp [handleMessage, truthy, hTo, hFrom, RedisStore.getAllDevices, hUser,
        hDevs, fanoutStep, getDeviceWebSocket, hw1, hw2, ho1, ho2, hopt, ho3]
  rw [hrun]
  have htk : ((⟨fromU, toU, p, now⟩ : StoredMessage)
        :: st.store.conv (getConversationId fromU toU)).take 1000
      = ⟨fromU, toU, p, now⟩ :: st.store.conv (getConversationId fromU toU) :=
    List.take_of_length_le (by simp only [List.length_cons]; omega)
  refine ⟨?_, ?_, rfl, ?_, ?_, rfl⟩
  · simp [RedisStore.getConversationHistory, RedisStore.queueMessage,
      RedisStore.addMessage, htk]
    omega
  · intro c hc
    simp [RedisStore.queueMessage, RedisStore.addMessage, hc]
  · simp [RedisStore.queueMessage, RedisStore.addMessage]
  · intro ux dx hx
    simp [RedisStore.queueMessage, RedisStore.addMessage, hx]

/-- Witness for C1 at the concrete three-device scenario. -/
theorem c1_message_fanout_witness :
    fromUC1.isEmpty = false ∧ toUC1.isEmpty = false ∧
    stC1.store.users toUC1 = some userC1 ∧
    userC1.devices = [(d1C1, devC1), (d2C1, devC1), (d3C1, devC1)] ∧
    d1C1 ≠ d3C1 ∧ d2C1 ≠ d3C1 ∧
    stC1.wsConnections toUC1 d1C1 = some 1 ∧ envC1.wsOpen 1 = true ∧
    stC1.wsConnections toUC1 d2C1 = some 2 ∧ envC1.wsOpen 2 = true ∧
    deviceLive envC1 stC1.wsConnections toUC1 d3C1 = false ∧
    (stC1.store.conv (getConversationId fromUC1 toUC1)).length < 1000 ∧
    (RedisStore.getConversationHistory resC1.state.store
        (getConversationId fromUC1 toUC1)
      = RedisStore.getConversationHistory stC1.store
          (getConversationId fromUC1 toUC1) ++ [⟨fromUC1, toUC1, pC1, 7⟩] ∧
    (∀ c, c ≠ getConversationId fromUC1 toUC1 →
        resC1.state.store.conv c = stC1.store.conv c) ∧
    resC1.liveSends = [(1, pC1), (2, pC1)] ∧
    resC1.state.store.queue toUC1 d3C1 = pC1 :: stC1.store.queue toUC1 d3C1 ∧
    (∀ ux dx, ¬(ux = toUC1 ∧ dx = d3C1) →
        resC1.state.store.queue ux dx = stC1.store.queue ux dx) ∧
    resC1.sent = [.messageSent toUC1 2]) :=
  ⟨by decide, by decide, by decide, by decide, by decide, by decide, by decide,
   by decide, by decide, by decide, by decide, by decide,
   c1_message_fanout envC1 stC1 3 1 2 fromUC1 toUC1 d1C1 d2C1 d3C1
     devC1 devC1 devC1 userC1 pC1 7 resC1
     (by decide) (by decide) (by decide) (by decide) (by decide) (by decide)
     (by decide) (by decide) (by decide) (by decide) (by decide) (by decide) rfl⟩

/-- Folding the conversations-handler loop: when every listed conversation
has at least one record, the result appends exactly one summary per
conversation id containing the username as a substring. -/
theorem apiConvStep_foldl (st : ServerState) (username : String)
    (ids : List String) (acc : List ConvSummary)
    (hne : ∀ c ∈ ids, st.store.conv c ≠ []) :
    ids.foldl (apiConvStep st username) acc
      = acc ++ (ids.filter (fun c => strIncludes c username)).map
          (mkSummary st username) := by
  induction ids generalizing acc with
  | nil => simp
  | cons c t ih =>
    have hc : st.store.conv c ≠ [] := hne c (List.mem_cons_self c t)
    have ht : ∀ x ∈ t, st.store.conv x ≠ [] :=
      fun x hx => hne x (List.mem_cons_of_mem c hx)
    rw [List.foldl_cons, ih _ ht]
    by_cases hinc : strIncludes c username
    · have hhist : RedisStore.getConversationHistory st.store c ≠ [] := by
        simpa [RedisStore.getConversationHistory] using hc
      obtain ⟨x, hx⟩ :=
        Option.isSome_iff_exists.mp (List.getLast?_isSome.mpr hhist)
      simp [apiConvStep, hinc, hx, mkSummary, List.filter_cons]
    · simp [apiConvStep, hinc, List.filter_cons]

/-- C10: the conversations endpoint includes a conversation exactly when
the conversation id contains the username as a SUBSTRING (given every
stored conversation has a record, as every reachable store does) — not
when the user is a participant; concretely, user `a` is served the
conversation `ab_c` between participants `ab` and `c`, neither of whom is
`a`. -/
theorem c10_conversation_substring :
    (∀ (st : ServerState) (username : String),
        (∀ c ∈ st.store.convKeys, st.store.conv c ≠ []) →
        apiConversations st username
          = (st.store.convKeys.filter (fun c => strIncludes c username)).map
              (mkSummary st username)) ∧
    (apiConversations stC10 aC10 = [⟨abC10, mC10, 0⟩] ∧
      abcC10 = getConversationId abC10 cC10 ∧
      aC10 ≠ abC10 ∧ aC10 ≠ cC10) := by
  constructor
  · intro st username hne
    have h := apiConvStep_foldl st username
      (RedisStore.getAllConversationIds st.store) [] hne
    simpa [apiConversations, RedisStore.getAllConversationIds] using h
  · refine ⟨by decide, by decide, by decide, by decide⟩

/-- Witness for C10's substring characterisation at the concrete store. -/
theorem c10_conversation_substring_witness :
    (∀ c ∈ stC10.store.convKeys, stC10.store.conv c ≠ []) ∧
    apiConversations stC10 aC10
      = (stC10.store.convKeys.filter (fun c => strIncludes c aC10)).map
          (mkSummary stC10 aC10) :=
  ⟨by decide, c10_conversation_substring.1 stC10 aC10 (by decide)⟩
